import Mathlib

/-!
Verification of the event-pipeline testbed: shallow embedding of the
query-status resolver (src/services/query_api/main.py), the simulator's
downtime state machine (src/services/simulator/main.py), the ingest
producer (src/services/ingest_api/main.py) and the event-processor loop
(src/services/process_worker/main.py), with theorems settling the
specification claims about them.
-/

namespace QueryApi

/-- Status strings returned by `GET /status/\x7bevent_id\x7d`. -/
inductive Status
  | processed
  | received
  | unknown
  deriving DecidableEq, Repr

/-- Outcome of the SQLite access performed by `get_status`
(`sqlite3.connect(DB_PATH)` followed by
`SELECT event_id FROM processed_events WHERE event_id = ?`): either the
access raises `sqlite3.OperationalError` (store unreachable or locked),
or it yields the current rows of the `processed_events` table, each row
identified by its `event_id` key. -/
inductive StoreAccess
  | unreachable
  | table (rows : List String)
  deriving DecidableEq, Repr

/-- Embedding of `get_status` (src/services/query_api/main.py, lines 69-92).
The `try` block runs the SELECT and `fetchone()`; a row means `processed`;
`sqlite3.OperationalError` is caught and mapped to `unknown`; falling
through the `try` block returns `received`.  The function is total into
`Status`: every modelled store outcome produces a response, none an
exception. -/
def get_status (store : StoreAccess) (event_id : String) : Status :=
  match store with
  | .unreachable => .unknown
  | .table rows =>
      match (rows.filter (fun row => row = event_id)).head? with
      | some _ => .processed
      | none => .received

end QueryApi

namespace Simulator

/-- Per-target entry of `downtime_tracker`: `\x7b"up": bool, "since": timestamp\x7d`.
Wall-clock instants from `time.time()` are modelled as exact numbers; the
only arithmetic on them is subtraction. -/
structure TargetState where
  up : Bool
  since : Int
  deriving DecidableEq, Repr

/-- One `sim_downtime_seconds.add(duration, ...)` measurement with its
attributes. -/
structure DowntimeSample where
  duration : Int
  target_service : String
  reason : String
  deriving DecidableEq, Repr

/-- Observable emissions of `record_downtime`: the "DOWNTIME DETECTED"
signal printed on the UP-to-DOWN edge, and the downtime-duration
measurement emitted on the DOWN-to-UP edge. -/
inductive Emit
  | downtimeDetected (service : String)
  | sample (s : DowntimeSample)
  deriving DecidableEq, Repr

/-- Embedding of `record_downtime` (src/services/simulator/main.py,
lines 54-69), acting on the single target named `service`; the mutex and
the shared table are abstracted into explicit state passing.  The two
`time.time()` calls of the DOWN-to-UP branch happen at one modelled
instant `now`. -/
def record_downtime (service : String) (is_down : Bool) (now : Int)
    (state : TargetState) : TargetState × List Emit :=
  if is_down && state.up then
    ({ up := false, since := now }, [Emit.downtimeDetected service])
  else if !is_down && !state.up then
    let duration := now - state.since
    let reason := if service != "functional" then "health_fail" else "functional_fail"
    ({ up := true, since := now },
     [Emit.sample { duration := duration, target_service := service, reason := reason }])
  else
    (state, [])

end Simulator

namespace IngestApi

/-- Request body of `POST /ingest` (the pydantic `Event` model). -/
structure Event where
  timestamp : String
  device_id : String
  value : Rat
  deriving DecidableEq, Repr

/-- The serialized payload appended to the stream: the input fields plus
the generated `event_id` (the dict `event_data` after
`event_data["event_id"] = event_id`). -/
structure EventData where
  timestamp : String
  device_id : String
  value : Rat
  event_id : String
  deriving DecidableEq, Repr

/-- One entry of `events_stream`: its single field `data` carries the
serialized event. -/
structure StreamEntry where
  data : EventData
  deriving DecidableEq, Repr

/-- Response of a successful ingest call: HTTP status 202 plus the
`\x7bevent_id\x7d` body. -/
structure IngestResponse where
  status_code : Nat
  event_id : String
  deriving DecidableEq, Repr

/-- The sixteen lowercase hexadecimal digits, as used by
`str(uuid.UUID(...))`: code points 48-57 are the decimal digits, 97-102
the letters a to f. -/
def hexAlphabet : List Char :=
  (List.range 16).map (fun n => Char.ofNat (if n < 10 then 48 + n else 87 + n))

/-- Lowercase hex digit for a value below 16. -/
def hexChar (n : Nat) : Char :=
  hexAlphabet.getD n '0'

/-- Nibble `i` (0 = most significant of 32) of the UUID produced by
`uuid.uuid4()` from the 128-bit random draw `r`, after the version and
variant overrides: the high nibble of byte 6 (hex digit 12) is forced to
4, and the top two bits of byte 8 (hex digit 16) are forced to `10`, so
that digit becomes `8 + (low two bits of the original nibble)`. -/
def uuidNibble (r i : Nat) : Nat :=
  if i = 12 then 4
  else if i = 16 then 8 + r / 16 ^ (31 - i) % 16 % 4
  else r / 16 ^ (31 - i) % 16

/-- Hex character of nibble `i` of the uuid4 drawn from `r`. -/
def uuidDigit (r i : Nat) : Char :=
  hexChar (uuidNibble r i)

/-- The 36 characters of `str(uuid.uuid4())` for the random draw `r`:
32 hex digits in 8-4-4-4-12 groups separated by hyphens. -/
def uuid4_chars (r : Nat) : List Char :=
  [uuidDigit r 0, uuidDigit r 1, uuidDigit r 2, uuidDigit r 3,
   uuidDigit r 4, uuidDigit r 5, uuidDigit r 6, uuidDigit r 7, '-',
   uuidDigit r 8, uuidDigit r 9, uuidDigit r 10, uuidDigit r 11, '-',
   uuidDigit r 12, uuidDigit r 13, uuidDigit r 14, uuidDigit r 15, '-',
   uuidDigit r 16, uuidDigit r 17, uuidDigit r 18, uuidDigit r 19, '-',
   uuidDigit r 20, uuidDigit r 21, uuidDigit r 22, uuidDigit r 23,
   uuidDigit r 24, uuidDigit r 25, uuidDigit r 26, uuidDigit r 27,
   uuidDigit r 28, uuidDigit r 29, uuidDigit r 30, uuidDigit r 31]

/-- The event id string `str(uuid.uuid4())` for the random draw `r`. -/
def uuid4_str (r : Nat) : String :=
  String.mk (uuid4_chars r)

/-- Check of one position of a candidate UUID string: positions 8, 13, 18
and 23 hold a hyphen, every other position a lowercase hex digit. -/
def uuidPosOk (cs : List Char) (i : Nat) : Bool :=
  if i = 8 || i = 13 || i = 18 || i = 23 then cs.getD i ' ' = '-'
  else hexAlphabet.contains (cs.getD i ' ')

/-- Well-formedness of a version-4 UUID string: 36 characters, hyphens at
positions 8, 13, 18 and 23, lowercase hex digits elsewhere, version digit
`4` at position 14 and variant digit in 8-9-a-b at position 19. -/
def wellFormedUuid4 (s : String) : Bool :=
  let cs := s.toList
  cs.length = 36 &&
  (List.range 36).all (fun i => uuidPosOk cs i) &&
  cs.getD 14 ' ' = '4' &&
  ['8', '9', 'a', 'b'].contains (cs.getD 19 ' ')

/-- Embedding of `ingest_event` (src/services/ingest_api/main.py,
lines 77-88).  `r` is the 128-bit random draw consumed by `uuid.uuid4()`;
`xadd_ok` says whether `redis_client.xadd` succeeds (`false` models the
append raising because the stream dependency is unavailable, in which
case the exception propagates out of the handler and no response body is
produced). -/
def ingest_event (event : Event) (r : Nat) (xadd_ok : Bool)
    (stream : List StreamEntry) : Except Unit (List StreamEntry × IngestResponse) :=
  let event_id := uuid4_str r
  let event_data : EventData :=
    { timestamp := event.timestamp, device_id := event.device_id,
      value := event.value, event_id := event_id }
  if xadd_ok then
    .ok (stream ++ [{ data := event_data }],
         { status_code := 202, event_id := event_id })
  else
    .error ()

end IngestApi

namespace ProcessWorker

/-- A row of the `processed_events` table (schema created by `init_db`):
primary key `event_id`, columns `timestamp`, `device_id`, `value`, and
`processed_at`, the latter server-assigned (`DEFAULT CURRENT_TIMESTAMP`)
at insert time. -/
structure ProcessedRecord where
  event_id : String
  timestamp : String
  device_id : String
  value : Rat
  processed_at : Int
  deriving DecidableEq, Repr

/-- Embedding of the persistence step of `process_events`
(src/services/process_worker/main.py, lines 83-89):
`INSERT OR IGNORE INTO processed_events ...` followed by `conn.commit()`.
When a row with the same `event_id` primary key already exists the
statement is ignored and the table is unchanged; otherwise the row is
inserted with `processed_at` set to the commit instant `now`. -/
def insertOrIgnore (d : IngestApi.EventData) (now : Int)
    (store : List ProcessedRecord) : List ProcessedRecord :=
  if store.any (fun rec => rec.event_id = d.event_id) then store
  else
    store ++ [{ event_id := d.event_id, timestamp := d.timestamp,
                device_id := d.device_id, value := d.value, processed_at := now }]

/-- A stream entry as delivered by `xreadgroup`: the broker-assigned entry
id and the parsed `data` payload. -/
structure StreamMsg where
  msg_id : Nat
  data : IngestApi.EventData
  deriving DecidableEq, Repr

/-- Outcome of the blocking `xreadgroup` call: the call raises, the
1000 ms timeout elapses with no entry, or exactly one entry (batch size 1)
is delivered. -/
inductive ReadResult
  | readError
  | empty
  | msg (m : StreamMsg)
  deriving DecidableEq, Repr

/-- Environment of one iteration of the `while True` loop: the read
outcome and whether each subsequent fallible step (json parse, SQLite
insert plus commit, `xack`) succeeds, plus the commit instant used for
`processed_at`. -/
structure IterEnv where
  read : ReadResult
  parse_ok : Bool
  insert_ok : Bool
  ack_ok : Bool
  now : Int
  deriving DecidableEq, Repr

/-- State visible to the worker across iterations: the store table, the
entries acknowledged so far, and the three loop counters
(`worker.events.consumed`, `worker.events.processed`,
`worker.loop.errors`). -/
structure WorkerState where
  store : List ProcessedRecord
  acked : List StreamMsg
  events_consumed : Nat
  events_processed : Nat
  loop_errors : Nat
  deriving DecidableEq, Repr

/-- Result of one loop iteration: the successor state, the seconds slept
by the `except` handler, whether the handler logged an error, and whether
the loop goes on to the next iteration (the loop body has no break or
return, so this is true on every path). -/
structure IterResult where
  state : WorkerState
  slept_seconds : Nat
  logged_error : Bool
  loop_continues : Bool
  deriving DecidableEq, Repr

/-- The `except Exception` handler of the loop
(src/services/process_worker/main.py, lines 95-98): increment
`worker.loop.errors`, log, sleep one second, continue. -/
def handle_exception (s : WorkerState) : IterResult :=
  { state := { s with loop_errors := s.loop_errors + 1 },
    slept_seconds := 1, logged_error := true, loop_continues := true }

/-- Embedding of one iteration of the `while True` loop of
`process_events` (src/services/process_worker/main.py, lines 65-98).
A read error, a parse failure, an insert failure or an ack failure each
jump to the `except` handler, keeping every state change already made;
on the full success path the entry is persisted first and acknowledged
afterwards. -/
def process_events_iteration (env : IterEnv) (s : WorkerState) : IterResult :=
  match env.read with
  | .readError => handle_exception s
  | .empty => { state := s, slept_seconds := 0, logged_error := false, loop_continues := true }
  | .msg m =>
      let s1 := { s with events_consumed := s.events_consumed + 1 }
      if !env.parse_ok then handle_exception s1
      else if !env.insert_ok then handle_exception s1
      else
        let s2 := { s1 with store := insertOrIgnore m.data env.now s1.store }
        if !env.ack_ok then handle_exception s2
        else
          { state :=
              { s2 with acked := s2.acked ++ [m],
                        events_processed := s2.events_processed + 1 },
            slept_seconds := 0, logged_error := false, loop_continues := true }

/-- Whether the iteration described by `env` raises an exception at some
step: the read raising, or — once an entry was delivered — the parse,
the insert or the ack raising. -/
def excepted (env : IterEnv) : Bool :=
  match env.read with
  | .readError => true
  | .empty => false
  | .msg _ => !env.parse_ok || !env.insert_ok || !env.ack_ok

/-- Worker state at startup: whatever rows the store already holds (the
table survives restarts), no entry acknowledged by this run, counters at
zero. -/
def initState (store0 : List ProcessedRecord) : WorkerState :=
  { store := store0, acked := [], events_consumed := 0,
    events_processed := 0, loop_errors := 0 }

/-- States reachable by the worker: an initial state followed by any
number of loop iterations under arbitrary environments. -/
inductive Reachable : WorkerState → Prop
  | init (store0 : List ProcessedRecord) : Reachable (initState store0)
  | step (env : IterEnv) {s : WorkerState} :
      Reachable s → Reachable (process_events_iteration env s).state

/-- The at-least-once ordering invariant: every acknowledged entry has a
row with its event id in the store. -/
def ackedPersisted (s : WorkerState) : Prop :=
  ∀ m ∈ s.acked, ∃ rec ∈ s.store, rec.event_id = m.data.event_id

/-- Mode of the `sqlite3.connect` call issued by a readiness check: the
Query Resolver connects with URI `file:...?mode=ro`, the Processor with a
plain path (read-write, creating the file when absent). -/
inductive ConnectMode
  | readOnly
  | readWrite
  deriving DecidableEq, Repr

/-- SQLite open semantics for the readiness checks.  `fs` says whether the
database file exists; `fault` models any other failure of the open or of
the `SELECT 1` probe (locked file, bad path, I/O error).  Returns whether
the check succeeded and whether the file exists afterwards: a `mode=ro`
open fails when the file is absent and never creates it; a read-write
open creates the file when absent. -/
def sqlite_connect (mode : ConnectMode) (fs : Bool) (fault : Bool) : Bool × Bool :=
  match mode with
  | .readOnly => (fs && !fault, fs)
  | .readWrite => (!fault, if fault then fs else true)

/-- HTTP response of a `GET /ready` handler. -/
structure ReadyResponse where
  status_code : Nat
  status : String
  details : Option String
  deriving DecidableEq, Repr

/-- Outcome of `redis_client.ping()`: a positive reply, a falsy reply, or
a raised exception. -/
inductive PingResult
  | pong
  | noPong
  | exn
  deriving DecidableEq, Repr

/-- Embedding of `readiness_check` of the Processor
(src/services/process_worker/main.py, lines 107-117): a read-write
connect plus `SELECT 1`; any exception yields 503 with the store-related
detail.  Returns the response and the file-existence state afterwards. -/
def worker_readiness_check (fs : Bool) (db_fault : Bool) : ReadyResponse × Bool :=
  let conn := sqlite_connect .readWrite fs db_fault
  if conn.1 then
    ({ status_code := 200, status := "ok", details := none }, conn.2)
  else
    ({ status_code := 503, status := "error", details := some "Database not reachable" }, conn.2)

/-- Embedding of `readiness_check` of the Query Resolver
(src/services/query_api/main.py, lines 100-129): first a read-only
(`mode=ro`) connect plus `SELECT 1` — failure yields 503 with the
store-related detail — then `redis_client.ping()` — a falsy reply or an
exception yields 503 with the Redis detail — and only then 200.  Returns
the response and the file-existence state afterwards. -/
def query_readiness_check (fs : Bool) (db_fault : Bool) (ping : PingResult) :
    ReadyResponse × Bool :=
  let conn := sqlite_connect .readOnly fs db_fault
  if !conn.1 then
    ({ status_code := 503, status := "error", details := some "Database not reachable" }, conn.2)
  else
    match ping with
    | .pong => ({ status_code := 200, status := "ok", details := none }, conn.2)
    | .noPong =>
        ({ status_code := 503, status := "error", details := some "Redis not reachable" }, conn.2)
    | .exn =>
        ({ status_code := 503, status := "error", details := some "Redis not reachable" }, conn.2)

end ProcessWorker

/-- Claim C1: for every event_id, the status lookup returns `processed`
when a row with that event_id exists in the store, `unknown` when the
store is unreachable, and `received` otherwise (the key being absent),
and every modelled outcome yields one of the three statuses — no
exception reaches the caller. -/
theorem get_status_resolution (rows : List String) (event_id : String) :
    QueryApi.get_status (QueryApi.StoreAccess.table rows) event_id =
      (if event_id ∈ rows then QueryApi.Status.processed else QueryApi.Status.received) ∧
    QueryApi.get_status QueryApi.StoreAccess.unreachable event_id = QueryApi.Status.unknown ∧
    ∀ store : QueryApi.StoreAccess,
      QueryApi.get_status store event_id = QueryApi.Status.processed ∨
      QueryApi.get_status store event_id = QueryApi.Status.received ∨
      QueryApi.get_status store event_id = QueryApi.Status.unknown := by
  refine ⟨?_, rfl, ?_⟩
  · cases h : (rows.filter (fun row => row = event_id)).head? with
    | some r =>
        have hrm : r ∈ rows.filter (fun row => row = event_id) :=
          List.mem_of_mem_head? (by rw [h]; exact Option.mem_some_self r)
        have hmem : event_id ∈ rows := by
          rcases List.mem_filter.mp hrm with ⟨hin, heq⟩
          exact (of_decide_eq_true heq) ▸ hin
        simp [QueryApi.get_status, h, hmem]
    | none =>
        have hnil : rows.filter (fun row => row = event_id) = [] :=
          List.head?_eq_none_iff.mp h
        have hmem : event_id ∉ rows := by
          intro hin
          exact (List.filter_eq_nil_iff.mp hnil event_id hin) (by simp)
        simp [QueryApi.get_status, h, hmem]
  · intro store
    cases store with
    | unreachable => right; right; rfl
    | table rows =>
        cases h : (rows.filter (fun row => row = event_id)).head? with
        | some _ => left; simp [QueryApi.get_status, h]
        | none => right; left; simp [QueryApi.get_status, h]

/-- Claim C2: a failure observation while the target is UP transitions it
to DOWN, sets `since = now` and emits only the downtime-detected signal;
a success observation while the target is DOWN transitions it to UP and
emits exactly one downtime-duration measurement equal to `now - since`,
tagged with the target and with reason `health_fail` for non-functional
targets or `functional_fail` for the target `"functional"`, then sets
`since = now`. -/
theorem record_downtime_edges (service : String) (now : Int)
    (state : Simulator.TargetState) :
    (state.up = true →
      Simulator.record_downtime service true now state =
        ({ up := false, since := now }, [Simulator.Emit.downtimeDetected service])) ∧
    (state.up = false →
      Simulator.record_downtime service false now state =
        ({ up := true, since := now },
         [Simulator.Emit.sample
           { duration := now - state.since, target_service := service,
             reason := if service = "functional" then "functional_fail" else "health_fail" }])) := by
  constructor
  · intro hup
    simp [Simulator.record_downtime, hup]
  · intro hdn
    by_cases hs : service = "functional"
    · simp [Simulator.record_downtime, hdn, hs]
    · simp [Simulator.record_downtime, hdn, hs, bne_iff_ne, Ne]

/-- Witness for C2 at concrete inputs: the target `"functional"` in state
UP since 3 goes DOWN at instant 10 with the detected signal, and in state
DOWN since 3 goes UP at instant 10 emitting a single sample of duration 7
with reason `functional_fail`. -/
theorem record_downtime_edges_witness :
    Simulator.record_downtime "functional" true 10 { up := true, since := 3 } =
      ({ up := false, since := 10 }, [Simulator.Emit.downtimeDetected "functional"]) ∧
    Simulator.record_downtime "functional" false 10 { up := false, since := 3 } =
      ({ up := true, since := 10 },
       [Simulator.Emit.sample
         { duration := 7, target_service := "functional", reason := "functional_fail" }]) := by
  refine ⟨(record_downtime_edges "functional" 10 { up := true, since := 3 }).1 rfl, ?_⟩
  have h := (record_downtime_edges "functional" 10 { up := false, since := 3 }).2 rfl
  simpa using h

/-- Claim C3: a success observation while the target is already UP and a
failure observation while it is already DOWN leave the state (both the
`up` flag and `since`) unchanged and emit nothing. -/
theorem record_downtime_no_ops (service : String) (now : Int)
    (state : Simulator.TargetState) :
    (state.up = true →
      Simulator.record_downtime service false now state = (state, [])) ∧
    (state.up = false →
      Simulator.record_downtime service true now state = (state, [])) := by
  constructor
  · intro hup
    simp [Simulator.record_downtime, hup]
  · intro hdn
    simp [Simulator.record_downtime, hdn]

/-- Witness for C3 at concrete inputs: a success while `"query-api"` is UP
and a failure while it is DOWN both leave the state untouched and emit
nothing. -/
theorem record_downtime_no_ops_witness :
    Simulator.record_downtime "query-api" false 10 { up := true, since := 3 } =
      ({ up := true, since := 3 }, []) ∧
    Simulator.record_downtime "query-api" true 10 { up := false, since := 3 } =
      ({ up := false, since := 3 }, []) :=
  ⟨(record_downtime_no_ops "query-api" 10 { up := true, since := 3 }).1 rfl,
   (record_downtime_no_ops "query-api" 10 { up := false, since := 3 }).2 rfl⟩

theorem uuidNibble_lt (r i : Nat) : IngestApi.uuidNibble r i < 16 := by
  unfold IngestApi.uuidNibble
  split
  · omega
  · split <;> omega

theorem hexChar_isHex (n : Nat) (h : n < 16) :
    IngestApi.hexAlphabet.contains (IngestApi.hexChar n) = true := by
  interval_cases n <;> rfl

theorem variantChar_mem (m : Nat) (h : m < 4) :
    (['8', '9', 'a', 'b'] : List Char).contains (IngestApi.hexChar (8 + m)) = true := by
  interval_cases m <;> rfl

theorem uuid4_wellFormed (r : Nat) :
    IngestApi.wellFormedUuid4 (IngestApi.uuid4_str r) = true := by
  have hhex : ∀ i : Nat, IngestApi.uuidDigit r i ∈ IngestApi.hexAlphabet := by
    intro i
    simpa using hexChar_isHex _ (uuidNibble_lt r i)
  have hver : IngestApi.uuidDigit r 12 = '4' := rfl
  have hvar : (['8', '9', 'a', 'b'] : List Char).contains (IngestApi.uuidDigit r 16) = true := by
    have hm : IngestApi.uuidNibble r 16 = 8 + r / 16 ^ 15 % 16 % 4 := rfl
    have h4 : r / 16 ^ 15 % 16 % 4 < 4 := by omega
    calc (['8', '9', 'a', 'b'] : List Char).contains (IngestApi.uuidDigit r 16)
        = (['8', '9', 'a', 'b'] : List Char).contains
            (IngestApi.hexChar (8 + r / 16 ^ 15 % 16 % 4)) := by
          rw [IngestApi.uuidDigit, hm]
      _ = true := variantChar_mem _ h4
  have hcs : (IngestApi.uuid4_str r).toList = IngestApi.uuid4_chars r := rfl
  unfold IngestApi.wellFormedUuid4
  rw [hcs]
  simp only [Bool.and_eq_true, List.all_eq_true, decide_eq_true_eq]
  refine ⟨⟨⟨?_, ?_⟩, ?_⟩, ?_⟩
  · simp [IngestApi.uuid4_chars]
  · intro i hi
    have hlt : i < 36 := List.mem_range.mp hi
    interval_cases i <;>
      simp [IngestApi.uuidPosOk, IngestApi.uuid4_chars, hhex]
  · simp [IngestApi.uuid4_chars, hver]
  · simpa [IngestApi.uuid4_chars] using hvar

/-- Claim C4: for every valid ingest payload, the producer generates an
event id from the fresh uuid4 draw, performs exactly one stream append
whose serialized payload consists of the input fields plus that event id,
and returns that event id with HTTP status 202; the generated id is a
well-formed version-4 UUID string. -/
theorem ingest_event_accepted (event : IngestApi.Event) (r : Nat)
    (stream : List IngestApi.StreamEntry) :
    IngestApi.ingest_event event r true stream =
      Except.ok
        (stream ++
           [{ data := { timestamp := event.timestamp, device_id := event.device_id,
                        value := event.value, event_id := IngestApi.uuid4_str r } }],
         { status_code := 202, event_id := IngestApi.uuid4_str r }) ∧
    (stream ++
       [({ data := { timestamp := event.timestamp, device_id := event.device_id,
                     value := event.value, event_id := IngestApi.uuid4_str r } } :
          IngestApi.StreamEntry)]).length = stream.length + 1 ∧
    IngestApi.wellFormedUuid4 (IngestApi.uuid4_str r) = true :=
  ⟨rfl, by simp, uuid4_wellFormed r⟩

/-- Claim C5: for every ingest call where the stream append fails, the
call fails — `ingest_event` yields the propagated error and no response
carrying an event id. -/
theorem ingest_event_append_failure (event : IngestApi.Event) (r : Nat)
    (stream : List IngestApi.StreamEntry) :
    IngestApi.ingest_event event r false stream = Except.error () := rfl

/-- Claim C6: every iteration of the processor loop continues, and any
exception at any step (read, parse, persist, acknowledge) is caught: the
error counter is incremented by one, the error is logged, and a fixed
one-second backoff is slept before the next iteration — no environment
terminates the worker. -/
theorem process_events_loop_resilient (env : ProcessWorker.IterEnv)
    (s : ProcessWorker.WorkerState) :
    (ProcessWorker.process_events_iteration env s).loop_continues = true ∧
    (ProcessWorker.excepted env = true →
      (ProcessWorker.process_events_iteration env s).state.loop_errors = s.loop_errors + 1 ∧
      (ProcessWorker.process_events_iteration env s).slept_seconds = 1 ∧
      (ProcessWorker.process_events_iteration env s).logged_error = true) := by
  obtain ⟨read, p, ins, a, now⟩ := env
  cases read with
  | readError => exact ⟨rfl, fun _ => ⟨rfl, rfl, rfl⟩⟩
  | empty =>
      refine ⟨rfl, fun hx => ?_⟩
      simp [ProcessWorker.excepted] at hx
  | msg m =>
      cases p <;> cases ins <;> cases a <;>
        simp [ProcessWorker.process_events_iteration, ProcessWorker.handle_exception,
          ProcessWorker.excepted]

/-- Witness for C6 at a concrete input: a failing read on the fresh worker
state increments the error counter to one, sleeps one second, logs, and
the loop continues. -/
theorem process_events_loop_resilient_witness :
    (ProcessWorker.process_events_iteration
        { read := ProcessWorker.ReadResult.readError, parse_ok := true,
          insert_ok := true, ack_ok := true, now := 0 }
        (ProcessWorker.initState [])).loop_continues = true ∧
    (ProcessWorker.process_events_iteration
        { read := ProcessWorker.ReadResult.readError, parse_ok := true,
          insert_ok := true, ack_ok := true, now := 0 }
        (ProcessWorker.initState [])).state.loop_errors = 1 ∧
    (ProcessWorker.process_events_iteration
        { read := ProcessWorker.ReadResult.readError, parse_ok := true,
          insert_ok := true, ack_ok := true, now := 0 }
        (ProcessWorker.initState [])).slept_seconds = 1 :=
  ⟨(process_events_loop_resilient
      { read := ProcessWorker.ReadResult.readError, parse_ok := true,
        insert_ok := true, ack_ok := true, now := 0 }
      (ProcessWorker.initState [])).1,
   ((process_events_loop_resilient
      { read := ProcessWorker.ReadResult.readError, parse_ok := true,
        insert_ok := true, ack_ok := true, now := 0 }
      (ProcessWorker.initState [])).2 rfl).1,
   ((process_events_loop_resilient
      { read := ProcessWorker.ReadResult.readError, parse_ok := true,
        insert_ok := true, ack_ok := true, now := 0 }
      (ProcessWorker.initState [])).2 rfl).2.1⟩

theorem insertOrIgnore_subset (d : IngestApi.EventData) (now : Int)
    (store : List ProcessWorker.ProcessedRecord) (row : ProcessWorker.ProcessedRecord)
    (h : row ∈ store) : row ∈ ProcessWorker.insertOrIgnore d now store := by
  unfold ProcessWorker.insertOrIgnore
  split
  · exact h
  · exact List.mem_append_left _ h

theorem insertOrIgnore_mem_key (d : IngestApi.EventData) (now : Int)
    (store : List ProcessWorker.ProcessedRecord) :
    ∃ row ∈ ProcessWorker.insertOrIgnore d now store, row.event_id = d.event_id := by
  unfold ProcessWorker.insertOrIgnore
  split
  case isTrue h =>
    rcases List.any_eq_true.mp h with ⟨row, hm, he⟩
    exact ⟨row, hm, of_decide_eq_true he⟩
  case isFalse h =>
    exact ⟨_, List.mem_append_right _ (List.mem_singleton_self _), rfl⟩

theorem processIteration_preserves_ackedPersisted (env : ProcessWorker.IterEnv)
    (s : ProcessWorker.WorkerState) (h : ProcessWorker.ackedPersisted s) :
    ProcessWorker.ackedPersisted (ProcessWorker.process_events_iteration env s).state := by
  obtain ⟨read, p, ins, a, now⟩ := env
  cases read with
  | readError => exact h
  | empty => exact h
  | msg m =>
      cases p with
      | false => exact h
      | true =>
          cases ins with
          | false => exact h
          | true =>
              cases a with
              | false =>
                  intro m2 hm2
                  rcases h m2 hm2 with ⟨row, hrow, hid⟩
                  exact ⟨row, insertOrIgnore_subset _ _ _ _ hrow, hid⟩
              | true =>
                  intro m2 hm2
                  simp only [ProcessWorker.process_events_iteration] at hm2
                  rcases List.mem_append.mp hm2 with hold | hnew
                  · rcases h m2 hold with ⟨row, hrow, hid⟩
                    exact ⟨row, insertOrIgnore_subset _ _ _ _ hrow, hid⟩
                  · obtain rfl := List.mem_singleton.mp hnew
                    exact insertOrIgnore_mem_key m2.data now s.store

/-- Claim C7: in every reachable worker state, every acknowledged
entry's event id has a record in the store — an entry is acknowledged
only after the insert of its event's record has been committed. -/
theorem process_events_ack_after_persist (s : ProcessWorker.WorkerState)
    (h : ProcessWorker.Reachable s) : ProcessWorker.ackedPersisted s := by
  induction h with
  | init store0 =>
      intro m hm
      simp [ProcessWorker.initState] at hm
  | step env hr ih => exact processIteration_preserves_ackedPersisted env _ ih

/-- Witness for C7 at a concrete reachable state: after one fully
successful iteration from the empty initial state, the single
acknowledged entry's event id is present in the store. -/
theorem process_events_ack_after_persist_witness :
    ProcessWorker.ackedPersisted
      (ProcessWorker.process_events_iteration
        { read := ProcessWorker.ReadResult.msg
            { msg_id := 1,
              data := { timestamp := "2024-01-01T00:00:00", device_id := "d1",
                        value := 1, event_id := "e1" } },
          parse_ok := true, insert_ok := true, ack_ok := true, now := 5 }
        (ProcessWorker.initState [])).state :=
  process_events_ack_after_persist _
    (ProcessWorker.Reachable.step _ (ProcessWorker.Reachable.init []))

theorem insertOrIgnore_mem_noop (d : IngestApi.EventData) (now : Int)
    (store : List ProcessWorker.ProcessedRecord)
    (h : store.any (fun row => row.event_id = d.event_id) = true) :
    ProcessWorker.insertOrIgnore d now store = store := by
  simp [ProcessWorker.insertOrIgnore, h]

/-- Claim C8: persistence is idempotent on the event id: once a record
with a given event id is in the store, any later upsert carrying the same
event id — whatever its payload fields or commit instant — is a no-op
that leaves the store exactly as it was: no duplicate row, and the first
record's fields (including `processed_at`) untouched. -/
theorem insertOrIgnore_idempotent (d d2 : IngestApi.EventData) (now now2 : Int)
    (store : List ProcessWorker.ProcessedRecord) (h : d2.event_id = d.event_id) :
    ProcessWorker.insertOrIgnore d2 now2 (ProcessWorker.insertOrIgnore d now store) =
      ProcessWorker.insertOrIgnore d now store := by
  apply insertOrIgnore_mem_noop
  rcases insertOrIgnore_mem_key d now store with ⟨row, hrow, hid⟩
  exact List.any_eq_true.mpr ⟨row, hrow, decide_eq_true (by rw [hid, h])⟩

/-- Witness for C8 at concrete inputs: re-upserting event id `e1` with a
different payload and a later commit instant leaves the store with the
single original record unchanged. -/
theorem insertOrIgnore_idempotent_witness :
    ProcessWorker.insertOrIgnore
        { timestamp := "t2", device_id := "d2", value := 2, event_id := "e1" } 9
        (ProcessWorker.insertOrIgnore
          { timestamp := "t1", device_id := "d1", value := 1, event_id := "e1" } 5 []) =
      ProcessWorker.insertOrIgnore
        { timestamp := "t1", device_id := "d1", value := 1, event_id := "e1" } 5 [] :=
  insertOrIgnore_idempotent
    { timestamp := "t1", device_id := "d1", value := 1, event_id := "e1" }
    { timestamp := "t2", device_id := "d2", value := 2, event_id := "e1" } 5 9 [] rfl

/-- Counterexample to claim C9 as stated: with the store file present and
no store fault — the store reachable — but Redis raising on ping, the
very next readiness check of the Query Resolver returns 503 with the
Redis reason, not 200. -/
theorem query_readiness_redis_counterexample :
    (ProcessWorker.query_readiness_check true false ProcessWorker.PingResult.exn).1 =
      { status_code := 503, status := "error", details := some "Redis not reachable" } := rfl

/-- Claim C9 (amended): whenever the store is unreachable — its file
absent or the open faulting for the read-only Query Resolver check, the
open faulting for the Processor check — `/ready` returns 503 with the
store-related reason `"Database not reachable"`; on the very next check
with the store reachable, the endpoint returns 200, provided (for the
Query Resolver only) its other dependency check, the Redis ping, also
succeeds; the Processor's check depends on the store alone. -/
theorem readiness_store_reachability (fs db_fault : Bool)
    (ping : ProcessWorker.PingResult) :
    ((fs && !db_fault) = false →
      (ProcessWorker.query_readiness_check fs db_fault ping).1 =
        { status_code := 503, status := "error", details := some "Database not reachable" }) ∧
    ((fs && !db_fault) = true →
      (ProcessWorker.query_readiness_check fs db_fault ProcessWorker.PingResult.pong).1 =
        { status_code := 200, status := "ok", details := none }) ∧
    (db_fault = true →
      (ProcessWorker.worker_readiness_check fs db_fault).1 =
        { status_code := 503, status := "error", details := some "Database not reachable" }) ∧
    (db_fault = false →
      (ProcessWorker.worker_readiness_check fs db_fault).1 =
        { status_code := 200, status := "ok", details := none }) := by
  cases fs <;> cases db_fault <;> cases ping <;>
    refine ⟨fun h1 => ?_, fun h2 => ?_, fun h3 => ?_, fun h4 => ?_⟩ <;>
      first
        | rfl
        | exact absurd h1 (by decide)
        | exact absurd h2 (by decide)
        | exact absurd h3 (by decide)
        | exact absurd h4 (by decide)

/-- Witness for C9 (amended) at concrete inputs: store file absent gives
503 with the store reason for the Query Resolver; store reachable and
Redis answering gives 200; a faulting store gives the Processor 503 with
the store reason; a healthy store gives the Processor 200. -/
theorem readiness_store_reachability_witness :
    (ProcessWorker.query_readiness_check false false ProcessWorker.PingResult.pong).1 =
      { status_code := 503, status := "error", details := some "Database not reachable" } ∧
    (ProcessWorker.query_readiness_check true false ProcessWorker.PingResult.pong).1 =
      { status_code := 200, status := "ok", details := none } ∧
    (ProcessWorker.worker_readiness_check true true).1 =
      { status_code := 503, status := "error", details := some "Database not reachable" } ∧
    (ProcessWorker.worker_readiness_check true false).1 =
      { status_code := 200, status := "ok", details := none } :=
  ⟨(readiness_store_reachability false false ProcessWorker.PingResult.pong).1 rfl,
   (readiness_store_reachability true false ProcessWorker.PingResult.pong).2.1 rfl,
   (readiness_store_reachability true true ProcessWorker.PingResult.pong).2.2.1 rfl,
   (readiness_store_reachability true false ProcessWorker.PingResult.pong).2.2.2 rfl⟩

/-- Claim C10: the Query Resolver's readiness check opens the store in
read-only mode, so it leaves the store's file-existence state unchanged
on every input — in particular it never creates an absent store file —
while the Processor's readiness check, opening read-write, creates the
store file when it is absent. -/
theorem query_readiness_readonly_frame (fs db_fault : Bool)
    (ping : ProcessWorker.PingResult) :
    (ProcessWorker.query_readiness_check fs db_fault ping).2 = fs ∧
    (ProcessWorker.worker_readiness_check false false).2 = true := by
  refine ⟨?_, rfl⟩
  cases fs <;> cases db_fault <;> cases ping <;> rfl
